import Mathlib

/-!
# Verification of `manotorch/manolayer.py` (ManoLayer)

Shallow embedding of the MANO hand-model layer: the rotation resolver,
shape/pose blend shapes, kinematic chain composer, linear blend skinning,
and post-processing (fingertips, joint reorder, centering), together with
the construction-time configuration logic of `ManoLayer.__init__` and the
call contract of `ManoLayer.forward`.

Tensors are modelled per batch item (the source's operations act pointwise
and identically on each batch slice); real-valued buffers become functions
over `Fin`-indexed dimensions, with `V = 778` vertices, `J = 16` joints and
`21` output joints, as fixed by the source.
-/

open Finset Matrix

/-- Vectors of length 3, indexed like the last dimension of a `(…, 3)` tensor. -/
abbrev V3 : Type := Fin 3 → ℝ

/-- Matrices of rotation entries, 3×3. -/
abbrev Mat3 : Type := Matrix (Fin 3) (Fin 3) ℝ

/-- Matrices of homogeneous-transform entries, 4×4. -/
abbrev Mat4 : Type := Matrix (Fin 4) (Fin 4) ℝ

/-- Source `th_with_zeros` (manolayer.py:28-34): appends the constant row
`[0, 0, 0, 1]` below a `3×4` block, yielding a `4×4` homogeneous matrix. -/
def th_with_zeros (A : Fin 3 → Fin 4 → ℝ) : Mat4 :=
  Matrix.of fun i j =>
    if h : (i : ℕ) < 3 then A ⟨i, h⟩ j else if (j : ℕ) = 3 then 1 else 0

/-- Source `th_with_zeros(torch.cat([R, t], 2))`: the homogeneous transform
`[R | t]` with bottom row `[0,0,0,1]` (manolayer.py:154, 170, 177, 183). -/
def homog (R : Mat3) (t : V3) : Mat4 :=
  th_with_zeros fun i j => if h : (j : ℕ) < 3 then R i ⟨j, h⟩ else t i

/-- Source `lev1_idxs = [1, 4, 7, 10, 13]` (manolayer.py:156). -/
def lev1_idxs : Fin 5 → Fin 16 := ![1, 4, 7, 10, 13]

/-- Source `lev2_idxs = [2, 5, 8, 11, 14]` (manolayer.py:157). -/
def lev2_idxs : Fin 5 → Fin 16 := ![2, 5, 8, 11, 14]

/-- Source `lev3_idxs = [3, 6, 9, 12, 15]` (manolayer.py:158). -/
def lev3_idxs : Fin 5 → Fin 16 := ![3, 6, 9, 12, 15]

/-- Source `root_transf = th_with_zeros(torch.cat([root_rot, root_j], 2))`
(manolayer.py:153-154); `Jloc` is the regressed joint-location tensor. -/
def rootTransf (rots : Fin 16 → Mat3) (Jloc : Fin 16 → V3) : Mat4 :=
  homog (rots 0) (Jloc 0)

/-- Level-1 absolute transforms (manolayer.py:169-172):
`lev1_flt = root_trans_flt @ th_with_zeros(cat([lev1_rots, lev1_j - root_j]))`.
`lev1_rots[i] = hand_rot[lev1_idxs[i] - 1] = full_rots[lev1_idxs[i]]`. -/
def lev1_flt (rots : Fin 16 → Mat3) (Jloc : Fin 16 → V3) (i : Fin 5) : Mat4 :=
  rootTransf rots Jloc * homog (rots (lev1_idxs i)) (Jloc (lev1_idxs i) - Jloc 0)

/-- Level-2 absolute transforms (manolayer.py:176-178):
`lev2_flt = lev1_flt @ th_with_zeros(cat([lev2_rots, lev2_j - lev1_j]))`. -/
def lev2_flt (rots : Fin 16 → Mat3) (Jloc : Fin 16 → V3) (i : Fin 5) : Mat4 :=
  lev1_flt rots Jloc i *
    homog (rots (lev2_idxs i)) (Jloc (lev2_idxs i) - Jloc (lev1_idxs i))

/-- Level-3 absolute transforms (manolayer.py:182-184):
`lev3_flt = lev2_flt @ th_with_zeros(cat([lev3_rots, lev3_j - lev2_j]))`. -/
def lev3_flt (rots : Fin 16 → Mat3) (Jloc : Fin 16 → V3) (i : Fin 5) : Mat4 :=
  lev2_flt rots Jloc i *
    homog (rots (lev3_idxs i)) (Jloc (lev3_idxs i) - Jloc (lev2_idxs i))

/-- Source `all_transforms = [root, lev1(0..4), lev2(0..4), lev3(0..4)]`
concatenated along the joint dimension (manolayer.py:168-185). -/
def allTransforms (rots : Fin 16 → Mat3) (Jloc : Fin 16 → V3) : Fin 16 → Mat4 :=
  ![rootTransf rots Jloc,
    lev1_flt rots Jloc 0, lev1_flt rots Jloc 1, lev1_flt rots Jloc 2,
    lev1_flt rots Jloc 3, lev1_flt rots Jloc 4,
    lev2_flt rots Jloc 0, lev2_flt rots Jloc 1, lev2_flt rots Jloc 2,
    lev2_flt rots Jloc 3, lev2_flt rots Jloc 4,
    lev3_flt rots Jloc 0, lev3_flt rots Jloc 1, lev3_flt rots Jloc 2,
    lev3_flt rots Jloc 3, lev3_flt rots Jloc 4]

/-- Source `reorder_idxs = [0, 1, 6, 11, 2, 7, 12, 3, 8, 13, 4, 9, 14, 5, 10, 15]`
(manolayer.py:187). -/
def reorder_idxs : Fin 16 → Fin 16 :=
  ![0, 1, 6, 11, 2, 7, 12, 3, 8, 13, 4, 9, 14, 5, 10, 15]

/-- Source `G_k = torch.cat(all_transforms, 1)[:, reorder_idxs]`, the absolute
(global) transform of every joint in native joint order
(manolayer.py:187-191, `th_transf_global`). -/
def transfGlobal (rots : Fin 16 → Mat3) (Jloc : Fin 16 → V3) : Fin 16 → Mat4 :=
  fun k => allTransforms rots Jloc (reorder_idxs k)

/-- Parent of each joint in the fixed 16-joint MANO kinematic tree, as
encoded by the source's level index lists (manolayer.py:156-158): the five
level-1 joints `[1,4,7,10,13]` are children of the root, and each level-2 /
level-3 joint `lev{n}_idxs[i]` is the child of `lev{n-1}_idxs[i]`, which is
numerically its predecessor. The root is mapped to itself (it has no
parent; every use below is guarded by `j ≠ 0`). -/
def kinematicParent : Fin 16 → Fin 16 :=
  ![0, 0, 1, 2, 0, 4, 5, 0, 7, 8, 0, 10, 11, 0, 13, 14]

/-- The immutable Model Data Store buffers registered by `ManoLayer.__init__`
(manolayer.py:71-81), for a model with `S` shape coefficients:
`th_shapedirs [778, 3, S]`, `th_posedirs [778, 3, 135]`,
`th_v_template [778, 3]`, `th_J_regressor [16, 778]`, `th_weights [778, 16]`,
and the raw `hands_mean [45]` / `hands_components [45, 45]` arrays of the
asset file (consumed by the axis-angle rotation resolver). -/
structure ModelData (S : ℕ) where
  th_shapedirs : Fin 778 → Fin 3 → Fin S → ℝ
  th_posedirs : Fin 778 → Fin 3 → Fin 135 → ℝ
  th_v_template : Fin 778 → Fin 3 → ℝ
  th_J_regressor : Fin 16 → Fin 778 → ℝ
  th_weights : Fin 778 → Fin 16 → ℝ
  hands_mean_raw : Fin 45 → ℝ
  hands_components : Fin 45 → Fin 45 → ℝ

/-- Source `B_S = matmul(th_shapedirs, betas.T)` (manolayer.py:133): the
shape-dependent per-vertex offset. -/
def shapeBlend {S : ℕ} (md : ModelData S) (betas : Fin S → ℝ) :
    Fin 778 → V3 :=
  fun v i => ∑ s : Fin S, md.th_shapedirs v i s * betas s

/-- Source `J = matmul(th_J_regressor, th_v_template + B_S)` (manolayer.py:136):
regressed joint locations of the shape-blended template. -/
def jointsRegressed {S : ℕ} (md : ModelData S) (betas : Fin S → ℝ) :
    Fin 16 → V3 :=
  fun k i =>
    ∑ v : Fin 778, md.th_J_regressor k v * (md.th_v_template v i + shapeBlend md betas v i)

/-- Source `rot_minus_mean_flat = (hand_rot - flat_rot).reshape(B, 15 * 9)`
(manolayer.py:139-143): deviation of each non-root rotation from the
identity, flattened row-major (entry `n` is row `n % 9 / 3`, column `n % 3`
of hand rotation `n / 9`, where `hand_rot[j] = full_rots[j + 1]`). -/
def rotMinusFlat (rots : Fin 16 → Mat3) : Fin 135 → ℝ :=
  fun n =>
    (rots ⟨(n : ℕ) / 9 + 1, by omega⟩ - 1)
      ⟨(n : ℕ) % 9 / 3, by omega⟩ ⟨(n : ℕ) % 3, by omega⟩

/-- Source `B_P = matmul(th_posedirs, rot_minus_mean_flat.T)` (manolayer.py:146):
the pose-dependent corrective per-vertex offset. -/
def poseBlend {S : ℕ} (md : ModelData S) (rots : Fin 16 → Mat3) :
    Fin 778 → V3 :=
  fun v i => ∑ n : Fin 135, md.th_posedirs v i n * rotMinusFlat rots n

/-- Source `T_P = th_v_template + B_S + B_P` (manolayer.py:149): the blend-shaped
template. -/
def poseBlendedTemplate {S : ℕ} (md : ModelData S) (rots : Fin 16 → Mat3)
    (betas : Fin S → ℝ) : Fin 778 → V3 :=
  fun v i => md.th_v_template v i + shapeBlend md betas v i + poseBlend md rots v i

/-- Source `joint_js = torch.cat([J, zeros(B, 16, 1)], 2)` (manolayer.py:194): each
regressed joint location padded with a homogeneous coordinate of `0`. -/
def jointJsHomo (Jloc : Fin 16 → V3) (k : Fin 16) : Fin 4 → ℝ :=
  fun c => if h : (c : ℕ) < 3 then Jloc k ⟨c, h⟩ else 0

/-- Source `G_prime_k = G_k - cat([zeros(4, 3), G_k @ joint_js], 3)`
(manolayer.py:195-196): the skinning transform, i.e. the absolute transform
with the rotated rest-joint location subtracted from its last column. -/
def transfSkin (rots : Fin 16 → Mat3) (Jloc : Fin 16 → V3) (k : Fin 16) : Mat4 :=
  transfGlobal rots Jloc k -
    Matrix.of fun (i j : Fin 4) =>
      if (j : ℕ) = 3 then (transfGlobal rots Jloc k *ᵥ jointJsHomo Jloc k) i else 0

/-- Source `T = matmul(G_prime_k.permute(0,2,3,1), th_weights.T)` (manolayer.py:200):
per-vertex accumulated transform, the skin-weighted sum of the 16 skinning
transforms. -/
def skinT {S : ℕ} (md : ModelData S) (rots : Fin 16 → Mat3)
    (betas : Fin S → ℝ) (v : Fin 778) : Mat4 :=
  ∑ k : Fin 16, md.th_weights v k • transfSkin rots (jointsRegressed md betas) k

/-- Source `T_P_homo = cat([T_P.transpose(2,1), ones(B, 1, 778)], 1)`
(manolayer.py:202-205): homogeneous coordinates of the blend-shaped
template vertex. -/
def tpHomo {S : ℕ} (md : ModelData S) (rots : Fin 16 → Mat3)
    (betas : Fin S → ℝ) (v : Fin 778) : Fin 4 → ℝ :=
  fun c => if h : (c : ℕ) < 3 then poseBlendedTemplate md rots betas v ⟨c, h⟩ else 1

/-- Source `verts = (T * T_P_homo).sum(2).transpose(2,1)[:, :, :3]`
(manolayer.py:209-211): skinned vertex positions, before centering. -/
def vertsPre {S : ℕ} (md : ModelData S) (rots : Fin 16 → Mat3)
    (betas : Fin S → ℝ) : Fin 778 → V3 :=
  fun v i => (skinT md rots betas v *ᵥ tpHomo md rots betas v) i.castSucc

/-- Source `joints = th_transf_global[:, :, :3, 3]` (manolayer.py:210): the 16
skeletal joint positions, read off the absolute transforms. -/
def jointsSkel (rots : Fin 16 → Mat3) (Jloc : Fin 16 → V3) : Fin 16 → V3 :=
  fun k i => transfGlobal rots Jloc k i.castSucc 3

/-- Fingertip vertex indices (manolayer.py:216-219): right hand
`[745, 317, 444, 556, 673]`, left hand `[745, 317, 445, 556, 673]`. -/
def tip_idxs (side : String) : Fin 5 → Fin 778 :=
  fun t =>
    if side = "right" then (![745, 317, 444, 556, 673] : Fin 5 → Fin 778) t
    else (![745, 317, 445, 556, 673] : Fin 5 → Fin 778) t

/-- Source `joints = torch.cat([joints, tips], 1)` (manolayer.py:217-221): the 16
skeletal joints followed by the 5 fingertip vertex positions. -/
def joints21 {S : ℕ} (md : ModelData S) (side : String)
    (rots : Fin 16 → Mat3) (betas : Fin S → ℝ) : Fin 21 → V3 :=
  fun n =>
    if h : (n : ℕ) < 16 then jointsSkel rots (jointsRegressed md betas) ⟨n, h⟩
    else vertsPre md rots betas (tip_idxs side ⟨(n : ℕ) - 16, by omega⟩)

/-- The fixed native-to-SNAP joint reorder permutation
`[0, 13, 14, 15, 16, 1, 2, 3, 17, 4, 5, 6, 18, 10, 11, 12, 19, 7, 8, 9, 20]`
(manolayer.py:232). -/
def snap_order : Fin 21 → Fin 21 :=
  ![0, 13, 14, 15, 16, 1, 2, 3, 17, 4, 5, 6, 18, 10, 11, 12, 19, 7, 8, 9, 20]

/-- Source `joints = joints[:, [0, 13, …, 20]]` (manolayer.py:232): the 21 joints
reordered to the SNAP convention, before centering. -/
def jointsReordered {S : ℕ} (md : ModelData S) (side : String)
    (rots : Fin 16 → Mat3) (betas : Fin S → ℝ) : Fin 21 → V3 :=
  fun o => joints21 md side rots betas (snap_order o)

/-- Source `center_joint` (manolayer.py:234-237): the reordered joint at the
configured center index, or the all-zero dummy when none is configured. -/
def centerJoint {S : ℕ} (md : ModelData S) (side : String)
    (center : Option (Fin 21)) (rots : Fin 16 → Mat3) (betas : Fin S → ℝ) : V3 :=
  match center with
  | some c => jointsReordered md side rots betas c
  | none => 0

/-- The dictionary returned by `ManoLayer.skinning_layer` (manolayer.py:251-257). -/
structure SkinningBlob where
  verts : Fin 778 → V3
  joints : Fin 21 → V3
  center_joint : V3
  transforms_abs : Fin 16 → Mat4

/-- Source `ManoLayer.skinning_layer` (manolayer.py:123-257) for one batch item,
after the configured center index has been resolved to a valid slot in
`[0, 21)` (or to `none`): blend shapes, kinematic chain, linear blend
skinning, fingertips, joint reorder, and the centering shift applied to
vertices, joints, and the translation column of every absolute transform
(manolayer.py:239-249). -/
def skinningCore {S : ℕ} (md : ModelData S) (side : String)
    (center : Option (Fin 21)) (rots : Fin 16 → Mat3) (betas : Fin S → ℝ) :
    SkinningBlob :=
  { verts := fun v => vertsPre md rots betas v - centerJoint md side center rots betas
    joints := fun o =>
      jointsReordered md side rots betas o - centerJoint md side center rots betas
    center_joint := centerJoint md side center rots betas
    transforms_abs := fun k =>
      th_with_zeros fun i j =>
        if h : (j : ℕ) < 3 then
          transfGlobal rots (jointsRegressed md betas) k i.castSucc ⟨(j : ℕ), by omega⟩
        else
          transfGlobal rots (jointsRegressed md betas) k i.castSucc 3 -
            centerJoint md side center rots betas i }

/-- The dictionary returned by the rotation resolvers (manolayer.py:111, 120):
16 per-joint rotation matrices and the flattened 48-component axis-angle
pose vector. -/
structure RotationBlob where
  full_rots : Fin 16 → Mat3
  full_poses : Fin 48 → ℝ

/-- The skew-symmetric cross-product matrix `[k]×` of an axis vector. -/
def crossMat (k : V3) : Mat3 :=
  !![0, -k 2, k 1; k 2, 0, -k 0; -k 1, k 0, 0]

/-- Modelled from the spec: `lietorch.SO3.exp(...).matrix()[..., :3, :3]`
(manolayer.py:109) is an external library call; §4.1 specifies it as the
axis-angle exponential map (Rodrigues' formula): for axis-angle vector `a`
with angle `θ = ‖a‖` and unit axis `k = a / θ`,
`R = I + sin θ · [k]× + (1 − cos θ) · [k]×²`, with `θ → 0` handled by the
matrix limit, the identity. -/
noncomputable def rodrigues (a : V3) : Mat3 :=
  if _h : Real.sqrt (a 0 ^ 2 + a 1 ^ 2 + a 2 ^ 2) = 0 then 1
  else
    1 + Real.sin (Real.sqrt (a 0 ^ 2 + a 1 ^ 2 + a 2 ^ 2)) •
          crossMat ((Real.sqrt (a 0 ^ 2 + a 1 ^ 2 + a 2 ^ 2))⁻¹ • a) +
        (1 - Real.cos (Real.sqrt (a 0 ^ 2 + a 1 ^ 2 + a 2 ^ 2))) •
          (crossMat ((Real.sqrt (a 0 ^ 2 + a 1 ^ 2 + a 2 ^ 2))⁻¹ • a) *
            crossMat ((Real.sqrt (a 0 ^ 2 + a 1 ^ 2 + a 2 ^ 2))⁻¹ • a))

/-- The two-argument arctangent, written through the complex argument. -/
noncomputable def atan2 (y x : ℝ) : ℝ := Complex.arg ⟨x, y⟩

/-- Modelled from the spec: `quaternion_to_rotation_matrix` of
`manotorch/utils/quatutils.py` (imported at manolayer.py:9, not under
`src/`); §4.1 specifies the standard (unit-)quaternion-to-matrix formula.
The quaternion is laid out `(w, x, y, z)`. -/
def quaternion_to_rotation_matrix (q : Fin 4 → ℝ) : Mat3 :=
  !![1 - 2 * (q 2 ^ 2 + q 3 ^ 2), 2 * (q 1 * q 2 - q 3 * q 0), 2 * (q 1 * q 3 + q 2 * q 0);
     2 * (q 1 * q 2 + q 3 * q 0), 1 - 2 * (q 1 ^ 2 + q 3 ^ 2), 2 * (q 2 * q 3 - q 1 * q 0);
     2 * (q 1 * q 3 - q 2 * q 0), 2 * (q 2 * q 3 + q 1 * q 0), 1 - 2 * (q 1 ^ 2 + q 2 ^ 2)]

/-- Modelled from the spec: `quaternion_to_angle_axis` of
`manotorch/utils/quatutils.py` (imported at manolayer.py:9, not under
`src/`); §4.1 specifies angle `= 2 · atan2(‖v‖, w)`, axis `= v / ‖v‖`, with
the `v ≈ 0` case mapping to the zero rotation; quaternion laid out
`(w, x, y, z)`. -/
noncomputable def quaternion_to_angle_axis (q : Fin 4 → ℝ) : V3 :=
  if _h : Real.sqrt (q 1 ^ 2 + q 2 ^ 2 + q 3 ^ 2) = 0 then 0
  else
    fun i =>
      2 * atan2 (Real.sqrt (q 1 ^ 2 + q 2 ^ 2 + q 3 ^ 2)) (q 0) *
        ((Real.sqrt (q 1 ^ 2 + q 2 ^ 2 + q 3 ^ 2))⁻¹ * q i.succ)

/-- The configuration state set up by `ManoLayer.__init__` (manolayer.py:38-92):
stored flags, the resolved rotation dispatch (`rot_mode` / `rot_dim`), the
mean pose registered only in axis-angle mode (zeroed when
`flat_hand_mean` is set, manolayer.py:83-87), and whether a
`warnings.warn` was emitted (manolayer.py:61-62). -/
structure MANOConfig where
  rot_mode : String
  rot_dim : ℕ
  side : String
  center_idx : Option ℤ
  use_pca : Bool
  ncomps : ℕ
  hands_mean : Option (Fin 45 → ℝ)
  warned : Bool

/-- Source `ManoLayer.__init__` (manolayer.py:38-92): validates only the rotation
mode. `axisang` stores `rot_dim = 3` and registers the (possibly zeroed)
mean pose; `quat` stores `rot_dim = 4` and merely warns when `use_pca` or
`not flat_hand_mean`; any other mode raises `NotImplementedError`. The
`center_idx` argument is stored without validation (manolayer.py:50). -/
def manoInit {S : ℕ} (rot_mode side : String) (center_idx : Option ℤ)
    (use_pca flat_hand_mean : Bool) (ncomps : ℕ) (md : ModelData S) :
    Except String MANOConfig :=
  if rot_mode = "axisang" then
    .ok { rot_mode := rot_mode, rot_dim := 3, side := side, center_idx := center_idx,
          use_pca := use_pca, ncomps := ncomps,
          hands_mean := some (if flat_hand_mean then 0 else md.hands_mean_raw),
          warned := false }
  else if rot_mode = "quat" then
    .ok { rot_mode := rot_mode, rot_dim := 4, side := side, center_idx := center_idx,
          use_pca := use_pca, ncomps := ncomps, hands_mean := none,
          warned := use_pca || !flat_hand_mean }
  else
    .error ("NotImplementedError: Unrecognized rotation mode, expect [pca|axisang|quat], got "
      ++ rot_mode)

/-- Row `i` of `th_selected_comps = hands_components[:ncomps]`
(manolayer.py:89-92): Python slicing silently caps `ncomps` at 45, so rows
beyond the table are never read; out-of-table rows are set to `0` here and
are unreachable for `ncomps ≤ 45`. -/
def compsSel {S : ℕ} (md : ModelData S) (i : ℕ) : Fin 45 → ℝ :=
  if h : i < 45 then md.hands_components ⟨i, h⟩ else 0

/-- Source `ManoLayer.rotation_by_axisang` (manolayer.py:96-112) for one batch
item: the first `rot_dim = 3` components are the root rotation; the hand
components are optionally expanded through the PCA basis and added to the
registered mean pose; every 3-component chunk of the resulting 48-vector is
sent through the exponential map. The pose vector is modelled as a function
`ℕ → ℝ` read on the first `3 + 45` (or `3 + ncomps`) slots. -/
noncomputable def rotation_by_axisang {S : ℕ} (md : ModelData S)
    (cfg : MANOConfig) (pose : ℕ → ℝ) : RotationBlob :=
  let full_poses : Fin 48 → ℝ := fun n =>
    if (n : ℕ) < 3 then pose n
    else
      (cfg.hands_mean.getD 0) ⟨(n : ℕ) - 3, by omega⟩ +
        (if cfg.use_pca then
          ∑ i ∈ Finset.range cfg.ncomps, pose (3 + i) * compsSel md i ⟨(n : ℕ) - 3, by omega⟩
        else pose n)
  { full_rots := fun k =>
      rodrigues fun i => full_poses ⟨3 * (k : ℕ) + (i : ℕ), by omega⟩
    full_poses := full_poses }

/-- Source `ManoLayer.rotation_by_quaternion` (manolayer.py:114-121) for one batch
item: the pose is reshaped to 16 quaternions, converted to rotation
matrices, and separately to the flattened 48-component axis-angle vector. -/
noncomputable def rotation_by_quaternion (pose : ℕ → ℝ) : RotationBlob :=
  { full_rots := fun k =>
      quaternion_to_rotation_matrix fun c => pose (4 * (k : ℕ) + (c : ℕ))
    full_poses := fun n =>
      quaternion_to_angle_axis
        (fun c => pose (4 * ((n : ℕ) / 3) + (c : ℕ)))
        ⟨(n : ℕ) % 3, by omega⟩ }

/-- PyTorch integer indexing into a dimension of size 21, as performed by
`joints[:, self.center_idx]` (manolayer.py:235): indices in `[0, 21)` are
used directly, indices in `[-21, 0)` select from the end, and anything else
raises `IndexError`. -/
def pyIdx21 (c : ℤ) : Option (Fin 21) :=
  if h : 0 ≤ c ∧ c < 21 then some ⟨c.toNat, by omega⟩
  else if h2 : -21 ≤ c ∧ c < 0 then some ⟨(c + 21).toNat, by omega⟩
  else none

/-- Source `ManoLayer.skinning_layer` (manolayer.py:123-257) with the stored
`center_idx` interpreted by PyTorch indexing: an unusable index surfaces as
`IndexError` when the center joint is gathered (manolayer.py:235). -/
def skinningLayer {S : ℕ} (md : ModelData S) (side : String)
    (center_idx : Option ℤ) (rots : Fin 16 → Mat3) (betas : Fin S → ℝ) :
    Except String SkinningBlob :=
  match center_idx with
  | none => .ok (skinningCore md side none rots betas)
  | some c =>
    match pyIdx21 c with
    | some f => .ok (skinningCore md side (some f) rots betas)
    | none => .error "IndexError"

/-- The `MANOOutput` named tuple (manolayer.py:13-24) for one batch item. -/
structure MANOOutput (S : ℕ) where
  verts : Fin 778 → V3
  joints : Fin 21 → V3
  center_idx : Option ℤ
  center_joint : V3
  full_poses : Fin 48 → ℝ
  betas : Fin S → ℝ
  transforms_abs : Fin 16 → Mat4

/-- Source `ManoLayer.forward` (manolayer.py:259-273) for one batch item: dispatch
to the rotation layer selected at construction, run the skinning layer, and
assemble the output bundle. -/
noncomputable def mano_forward {S : ℕ} (md : ModelData S) (cfg : MANOConfig)
    (pose : ℕ → ℝ) (betas : Fin S → ℝ) : Except String (MANOOutput S) :=
  let rot_blob :=
    if cfg.rot_mode = "quat" then rotation_by_quaternion pose
    else rotation_by_axisang md cfg pose
  (skinningLayer md cfg.side cfg.center_idx rot_blob.full_rots betas).map fun blob =>
    { verts := blob.verts
      joints := blob.joints
      center_idx := cfg.center_idx
      center_joint := blob.center_joint
      full_poses := rot_blob.full_poses
      betas := betas
      transforms_abs := blob.transforms_abs }

/-- Batched `ManoLayer.forward`: the source has no explicit batch check,
but `torch.cat([root_rot, root_j], 2)` (manolayer.py:154) requires the
batch dimensions of the pose-derived and betas-derived tensors to agree and
raises a `RuntimeError` otherwise; that emergent shape check is modelled as
the guard here. Each batch item is otherwise processed independently. -/
noncomputable def mano_forward_batched {S : ℕ} (md : ModelData S)
    (cfg : MANOConfig) (poses : List (ℕ → ℝ)) (betass : List (Fin S → ℝ)) :
    Except String (List (MANOOutput S)) :=
  if poses.length = betass.length then
    (poses.zip betass).mapM fun pb => mano_forward md cfg pb.1 pb.2
  else .error "RuntimeError: Sizes of tensors must match except in dimension 2"

/-- Whether an `Except` value is a success. -/
def exceptOk {ε α : Type} : Except ε α → Bool
  | .ok _ => true
  | .error _ => false

/-- The configuration produced by
`ManoLayer(rot_mode="axisang", side="right", center_idx=None, use_pca=False,
flat_hand_mean=True, ncomps=nc)`. -/
def axisangFlatCfg (nc : ℕ) : MANOConfig :=
  { rot_mode := "axisang", rot_dim := 3, side := "right", center_idx := none,
    use_pca := false, ncomps := nc, hands_mean := some 0, warned := false }

/-- A concrete all-zero model-data instance, used to instantiate theorems
at explicit inputs. -/
def mdZero : ModelData 1 :=
  { th_shapedirs := fun _ _ _ => 0
    th_posedirs := fun _ _ _ => 0
    th_v_template := fun _ _ => 0
    th_J_regressor := fun _ _ => 0
    th_weights := fun _ _ => 0
    hands_mean_raw := fun _ => 0
    hands_components := fun _ _ => 0 }

/-- A concrete model-data instance whose skin-weight rows sum to 1. -/
def mdOne : ModelData 1 :=
  { th_shapedirs := fun _ _ _ => 0
    th_posedirs := fun _ _ _ => 0
    th_v_template := fun _ _ => 0
    th_J_regressor := fun _ _ => 0
    th_weights := fun _ k => if k = 0 then 1 else 0
    hands_mean_raw := fun _ => 0
    hands_components := fun _ _ => 0 }

/-- C1: the kinematic chain composer produces, for the root joint, the 4×4
homogeneous transform `[root_rotation | root_joint_location]` with bottom
row `[0,0,0,1]`, and for every non-root joint `j` the absolute transform
equals the parent's already-composed absolute transform multiplied by the
local transform `[rotation_j | location_j - location_parent(j)]`, for every
batch item of rotation matrices and regressed joint locations. -/
theorem kinematic_chain_parent_composition
    (rots : Fin 16 → Mat3) (Jloc : Fin 16 → V3) :
    transfGlobal rots Jloc 0 = homog (rots 0) (Jloc 0) ∧
    ∀ j : Fin 16, j ≠ 0 →
      transfGlobal rots Jloc j =
        transfGlobal rots Jloc (kinematicParent j) *
          homog (rots j) (Jloc j - Jloc (kinematicParent j)) := by
  constructor
  · rfl
  · intro j hj
    fin_cases j
    · exact absurd rfl hj
    all_goals rfl

/-- Witness for C1 at concrete input: joint 5 against its parent 4. -/
theorem kinematic_chain_parent_composition_witness :
    ((5 : Fin 16) ≠ 0) ∧
      transfGlobal (fun _ => 1) (fun _ => 0) 5 =
        transfGlobal (fun _ => 1) (fun _ => 0) (kinematicParent 5) *
          homog 1 (0 - 0) :=
  ⟨by decide,
   (kinematic_chain_parent_composition (fun _ => 1) (fun _ => 0)).2 5 (by decide)⟩

/-! ### Helper lemmas on homogeneous transforms -/

/-- Entry formula for `homog R t`. -/
theorem homog_apply (R : Mat3) (t : V3) (i j : Fin 4) :
    homog R t i j =
      if hi : (i : ℕ) < 3 then
        (if hj : (j : ℕ) < 3 then R ⟨i, hi⟩ ⟨j, hj⟩ else t ⟨i, hi⟩)
      else if (j : ℕ) = 3 then 1 else 0 :=
  rfl

/-- Value of the `Fin 4` literal `0`. -/
theorem f4v0 : ((0 : Fin 4) : ℕ) = 0 := rfl

/-- Value of the `Fin 4` literal `1`. -/
theorem f4v1 : ((1 : Fin 4) : ℕ) = 1 := rfl

/-- Value of the `Fin 4` literal `2`. -/
theorem f4v2 : ((2 : Fin 4) : ℕ) = 2 := rfl

/-- Value of the `Fin 4` literal `3`. -/
theorem f4v3 : ((3 : Fin 4) : ℕ) = 3 := rfl

/-- Rotation block of `homog R t`. -/
theorem homog_rr (R : Mat3) (t : V3) (i j : Fin 3) :
    homog R t i.castSucc j.castSucc = R i j := by
  rw [homog_apply]
  rw [dif_pos (by simp : ((i.castSucc : Fin 4) : ℕ) < 3),
    dif_pos (by simp : ((j.castSucc : Fin 4) : ℕ) < 3)]
  rfl

/-- Translation column of `homog R t`. -/
theorem homog_tc (R : Mat3) (t : V3) (i : Fin 3) :
    homog R t i.castSucc 3 = t i := by
  rw [homog_apply]
  rw [dif_pos (by simp : ((i.castSucc : Fin 4) : ℕ) < 3), dif_neg (by decide)]
  rfl

/-- Bottom row of `homog R t` is `[0, 0, 0, 1]`. -/
theorem homog_bot (R : Mat3) (t : V3) (j : Fin 4) :
    homog R t 3 j = if (j : ℕ) = 3 then 1 else 0 := by
  rw [homog_apply, dif_neg (by decide)]

/-- Composition of two translation-only homogeneous transforms. -/
theorem homog_one_mul (a b : V3) :
    homog 1 a * homog 1 b = homog 1 (a + b) := by
  ext i j
  rw [Matrix.mul_apply, Fin.sum_univ_four]
  fin_cases i <;> fin_cases j <;>
    simp [homog_apply, Matrix.one_apply, f4v0, f4v1, f4v2, f4v3] <;> ring

/-- The root transform under identity rotations. -/
theorem rootTransf_one (Jloc : Fin 16 → V3) :
    rootTransf (fun _ => 1) Jloc = homog 1 (Jloc 0) := rfl

/-- Level-1 transforms under identity rotations are pure translations. -/
theorem lev1_flt_one (Jloc : Fin 16 → V3) (i : Fin 5) :
    lev1_flt (fun _ => 1) Jloc i = homog 1 (Jloc (lev1_idxs i)) := by
  unfold lev1_flt
  rw [rootTransf_one, homog_one_mul,
    show Jloc 0 + (Jloc (lev1_idxs i) - Jloc 0) = Jloc (lev1_idxs i) by abel]

/-- Level-2 transforms under identity rotations are pure translations. -/
theorem lev2_flt_one (Jloc : Fin 16 → V3) (i : Fin 5) :
    lev2_flt (fun _ => 1) Jloc i = homog 1 (Jloc (lev2_idxs i)) := by
  unfold lev2_flt
  rw [lev1_flt_one, homog_one_mul,
    show Jloc (lev1_idxs i) + (Jloc (lev2_idxs i) - Jloc (lev1_idxs i)) = Jloc (lev2_idxs i) by abel]

/-- Level-3 transforms under identity rotations are pure translations. -/
theorem lev3_flt_one (Jloc : Fin 16 → V3) (i : Fin 5) :
    lev3_flt (fun _ => 1) Jloc i = homog 1 (Jloc (lev3_idxs i)) := by
  unfold lev3_flt
  rw [lev2_flt_one, homog_one_mul,
    show Jloc (lev2_idxs i) + (Jloc (lev3_idxs i) - Jloc (lev2_idxs i)) = Jloc (lev3_idxs i) by abel]

/-- Under identity rotations every absolute transform is the pure
translation to its joint location. -/
theorem transfGlobal_one (Jloc : Fin 16 → V3) (k : Fin 16) :
    transfGlobal (fun _ => 1) Jloc k = homog 1 (Jloc k) := by
  fin_cases k
  · exact rootTransf_one Jloc
  · exact lev1_flt_one Jloc 0
  · exact lev2_flt_one Jloc 0
  · exact lev3_flt_one Jloc 0
  · exact lev1_flt_one Jloc 1
  · exact lev2_flt_one Jloc 1
  · exact lev3_flt_one Jloc 1
  · exact lev1_flt_one Jloc 2
  · exact lev2_flt_one Jloc 2
  · exact lev3_flt_one Jloc 2
  · exact lev1_flt_one Jloc 3
  · exact lev2_flt_one Jloc 3
  · exact lev3_flt_one Jloc 3
  · exact lev1_flt_one Jloc 4
  · exact lev2_flt_one Jloc 4
  · exact lev3_flt_one Jloc 4

/-- Under identity rotations every skinning transform is the identity. -/
theorem transfSkin_one (Jloc : Fin 16 → V3) (k : Fin 16) :
    transfSkin (fun _ => 1) Jloc k = 1 := by
  unfold transfSkin
  rw [transfGlobal_one]
  ext i j
  fin_cases i <;> fin_cases j <;>
    simp [Matrix.sub_apply, Matrix.of_apply, Matrix.mulVec, Matrix.dotProduct,
      Fin.sum_univ_four, homog_apply, jointJsHomo, Matrix.one_apply,
      f4v0, f4v1, f4v2, f4v3]

/-- With identity rotations and row-normalized skin weights the per-vertex
accumulated transform is the identity. -/
theorem skinT_one {S : ℕ} (md : ModelData S) (betas : Fin S → ℝ) (v : Fin 778)
    (hw : ∑ k : Fin 16, md.th_weights v k = 1) :
    skinT md (fun _ => 1) betas v = 1 := by
  unfold skinT
  simp only [transfSkin_one]
  rw [← Finset.sum_smul, hw, one_smul]

/-- The flattened rotation deviation vanishes at identity rotations. -/
theorem rotMinusFlat_one : rotMinusFlat (fun _ => 1) = fun _ => 0 := by
  funext n
  simp [rotMinusFlat]

/-- The pose blend shape vanishes at identity rotations. -/
theorem poseBlend_one {S : ℕ} (md : ModelData S) (v : Fin 778) :
    poseBlend md (fun _ => 1) v = 0 := by
  funext i
  simp [poseBlend, rotMinusFlat_one]

/-- With identity rotations the blend-shaped template is template plus
shape offset. -/
theorem poseBlendedTemplate_one {S : ℕ} (md : ModelData S) (betas : Fin S → ℝ) :
    poseBlendedTemplate md (fun _ => 1) betas =
      fun v i => md.th_v_template v i + shapeBlend md betas v i := by
  funext v i
  simp [poseBlendedTemplate, poseBlend_one md v]

/-- With identity rotations and row-normalized weights, skinning returns
the blend-shaped template. -/
theorem vertsPre_one {S : ℕ} (md : ModelData S) (betas : Fin S → ℝ)
    (hw : ∀ v, ∑ k : Fin 16, md.th_weights v k = 1) :
    vertsPre md (fun _ => 1) betas = poseBlendedTemplate md (fun _ => 1) betas := by
  funext v i
  unfold vertsPre
  rw [skinT_one md betas v (hw v), Matrix.one_mulVec]
  unfold tpHomo
  rw [dif_pos (by simp : ((i.castSucc : Fin 4) : ℕ) < 3)]
  rfl

/-- The exponential map at the zero axis-angle vector is the identity. -/
theorem rodrigues_zero : rodrigues (fun _ => 0) = 1 := by
  simp [rodrigues]

/-- The axis-angle resolver with zeroed mean pose and zero input resolves a
zero flattened pose vector. -/
theorem axisang_flat_zero_full_poses {S : ℕ} (md : ModelData S) (nc : ℕ) :
    (rotation_by_axisang md (axisangFlatCfg nc) (fun _ => 0)).full_poses = fun _ => 0 := by
  funext n
  simp [rotation_by_axisang, axisangFlatCfg]

/-- The axis-angle resolver with zeroed mean pose and zero input resolves
all 16 rotations to the identity. -/
theorem axisang_flat_zero_full_rots {S : ℕ} (md : ModelData S) (nc : ℕ) :
    ∀ k, (rotation_by_axisang md (axisangFlatCfg nc) (fun _ => 0)).full_rots k = 1 := by
  intro k
  have h :
      (fun i : Fin 3 =>
        (rotation_by_axisang md (axisangFlatCfg nc) (fun _ => 0)).full_poses
          ⟨3 * (k : ℕ) + (i : ℕ), by omega⟩) = fun _ => (0 : ℝ) := by
    rw [axisang_flat_zero_full_poses]
  calc (rotation_by_axisang md (axisangFlatCfg nc) (fun _ => 0)).full_rots k
      = rodrigues (fun i : Fin 3 =>
          (rotation_by_axisang md (axisangFlatCfg nc) (fun _ => 0)).full_poses
            ⟨3 * (k : ℕ) + (i : ℕ), by omega⟩) := rfl
    _ = rodrigues (fun _ => 0) := by rw [h]
    _ = 1 := rodrigues_zero

/-- C3: for every shape-coefficient input, when all 16 rotation inputs are
the identity (zero axis-angle under the flattened mean pose), the
pose-correction vertex offset `B_P` is exactly zero and the skeletal joints
read off the absolute transforms equal the joint regression of the
shape-blended template. -/
theorem identity_rotations_zero_pose_blend {S : ℕ} (nc : ℕ) (md : ModelData S)
    (betas : Fin S → ℝ) :
    (∀ k, (rotation_by_axisang md (axisangFlatCfg nc) (fun _ => 0)).full_rots k = 1) ∧
    (∀ v, poseBlend md (fun _ => 1) v = 0) ∧
    (∀ k, jointsSkel (fun _ => 1) (jointsRegressed md betas) k =
      jointsRegressed md betas k) := by
  refine ⟨axisang_flat_zero_full_rots md nc, poseBlend_one md, ?_⟩
  intro k
  funext i
  unfold jointsSkel
  rw [transfGlobal_one, homog_tc]

/-- C4: if a center-reference joint index `c` is configured, the `c`-th
returned joint is exactly the zero vector; if no center index is
configured, the reported center offset is exactly zero and vertices and
joints are unchanged by the centering step. -/
theorem centering_zero_and_noop {S : ℕ} (md : ModelData S) (side : String)
    (rots : Fin 16 → Mat3) (betas : Fin S → ℝ) :
    (∀ c : Fin 21, (skinningCore md side (some c) rots betas).joints c = 0) ∧
    ((skinningCore md side none rots betas).center_joint = 0 ∧
      (skinningCore md side none rots betas).joints = jointsReordered md side rots betas ∧
      (skinningCore md side none rots betas).verts = vertsPre md rots betas) := by
  refine ⟨?_, rfl, ?_, ?_⟩
  · intro c
    funext i
    simp [skinningCore, centerJoint]
  · funext o
    simp [skinningCore, centerJoint]
  · funext v
    simp [skinningCore, centerJoint]

/-- C5: with a configured center index, the centering step changes only the
translation column of each of the 16 absolute transforms (shifting it by
the center joint position), leaves every 3×3 rotation block unchanged, and
every returned transform keeps bottom row `[0,0,0,1]`. -/
theorem centering_translation_only {S : ℕ} (md : ModelData S) (side : String)
    (rots : Fin 16 → Mat3) (betas : Fin S → ℝ) (c : Fin 21) (k : Fin 16) :
    (∀ i j : Fin 3,
      (skinningCore md side (some c) rots betas).transforms_abs k i.castSucc j.castSucc =
        transfGlobal rots (jointsRegressed md betas) k i.castSucc j.castSucc) ∧
    (∀ i : Fin 3,
      (skinningCore md side (some c) rots betas).transforms_abs k i.castSucc 3 =
        transfGlobal rots (jointsRegressed md betas) k i.castSucc 3 -
          (skinningCore md side (some c) rots betas).center_joint i) ∧
    (∀ j : Fin 4,
      (skinningCore md side (some c) rots betas).transforms_abs k 3 j =
        if (j : ℕ) = 3 then 1 else 0) := by
  refine ⟨?_, ?_, ?_⟩
  · intro i j
    simp only [skinningCore, th_with_zeros, Matrix.of_apply]
    rw [dif_pos (by simp : ((i.castSucc : Fin 4) : ℕ) < 3),
      dif_pos (by simp : ((j.castSucc : Fin 4) : ℕ) < 3)]
    rfl
  · intro i
    simp only [skinningCore, th_with_zeros, Matrix.of_apply]
    rw [dif_pos (by simp : ((i.castSucc : Fin 4) : ℕ) < 3), dif_neg (by decide)]
    rfl
  · intro j
    simp only [skinningCore, th_with_zeros, Matrix.of_apply]
    rw [dif_neg (by decide)]

/-- C6: the native-to-canonical joint reorder applied by the post-processor
is exactly the fixed mapping
`[0,13,14,15,16,1,2,3,17,4,5,6,18,10,11,12,19,7,8,9,20]`, and this mapping
is a bijection on the 21 joint slots. -/
theorem snap_joint_order_bijection :
    (∀ o : Fin 21,
      ((snap_order o : ℕ)) =
        [0, 13, 14, 15, 16, 1, 2, 3, 17, 4, 5, 6, 18, 10, 11, 12,
          19, 7, 8, 9, 20].getD (o : ℕ) 0) ∧
    Function.Bijective snap_order ∧
    (∀ {S : ℕ} (md : ModelData S) (side : String) (rots : Fin 16 → Mat3)
      (betas : Fin S → ℝ) (o : Fin 21),
      jointsReordered md side rots betas o = joints21 md side rots betas (snap_order o)) :=
  ⟨by decide, by decide, fun _ _ _ _ _ => rfl⟩

/-- Skeletal joints under identity rotations are the regressed locations. -/
theorem jointsSkel_one (Jloc : Fin 16 → V3) (k : Fin 16) :
    jointsSkel (fun _ => 1) Jloc k = Jloc k := by
  funext i
  unfold jointsSkel
  rw [transfGlobal_one, homog_tc]

/-- With zero shape coefficients the regressed joints come from the bare
template. -/
theorem jointsRegressed_zero {S : ℕ} (md : ModelData S) :
    jointsRegressed md (fun _ => 0) =
      fun k i => ∑ v : Fin 778, md.th_J_regressor k v * md.th_v_template v i := by
  funext k i
  simp [jointsRegressed, shapeBlend]

/-- With identity rotations, zero shape coefficients, and row-normalized
weights, skinning reproduces the template exactly. -/
theorem vertsPre_tpl {S : ℕ} (md : ModelData S)
    (hw : ∀ v, ∑ k : Fin 16, md.th_weights v k = 1) :
    vertsPre md (fun _ => 1) (fun _ => 0) = md.th_v_template := by
  funext v i
  rw [vertsPre_one md (fun _ => 0) hw, poseBlendedTemplate_one]
  simp [shapeBlend]

/-- C2: for a right-hand model with no centering configured, forward with
all-zero shape coefficients and all-zero pose (flattened mean pose) yields
vertices exactly `v_template`; joints exactly the regressor applied to
`v_template` with fingertips at template vertices `[745,317,444,556,673]`,
reordered by the fixed 21-slot permutation; and the identity-rotation
absolute transforms. -/
theorem zero_pose_zero_shape_scenario {S : ℕ} (nc : ℕ) (md : ModelData S)
    (hw : ∀ v, ∑ k : Fin 16, md.th_weights v k = 1) :
    manoInit "axisang" "right" none false true nc md = .ok (axisangFlatCfg nc) ∧
    mano_forward md (axisangFlatCfg nc) (fun _ => 0) (fun _ => 0) =
      .ok { verts := md.th_v_template
            joints := fun o =>
              if h : ((snap_order o : Fin 21) : ℕ) < 16 then
                (fun i => ∑ v : Fin 778,
                  md.th_J_regressor ⟨((snap_order o : Fin 21) : ℕ), h⟩ v *
                    md.th_v_template v i)
              else
                md.th_v_template
                  ((![745, 317, 444, 556, 673] : Fin 5 → Fin 778)
                    ⟨((snap_order o : Fin 21) : ℕ) - 16, by omega⟩)
            center_idx := none
            center_joint := 0
            full_poses := fun _ => 0
            betas := fun _ => 0
            transforms_abs := fun k =>
              homog 1 (fun i => ∑ v : Fin 778,
                md.th_J_regressor k v * md.th_v_template v i) } := by
  have hrots : (rotation_by_axisang md (axisangFlatCfg nc) (fun _ => 0)).full_rots =
      fun _ => 1 := funext (axisang_flat_zero_full_rots md nc)
  have hverts : (skinningCore md "right" none (fun _ => 1) (fun _ => 0)).verts =
      md.th_v_template := by
    funext v i
    simp only [skinningCore, centerJoint]
    rw [Pi.sub_apply, vertsPre_tpl md hw]
    simp
  have hjoints : (skinningCore md "right" none (fun _ => 1) (fun _ => 0)).joints =
      fun o =>
        if h : ((snap_order o : Fin 21) : ℕ) < 16 then
          (fun i => ∑ v : Fin 778,
            md.th_J_regressor ⟨((snap_order o : Fin 21) : ℕ), h⟩ v *
              md.th_v_template v i)
        else
          md.th_v_template
            ((![745, 317, 444, 556, 673] : Fin 5 → Fin 778)
              ⟨((snap_order o : Fin 21) : ℕ) - 16, by omega⟩) := by
    funext o
    simp only [skinningCore, centerJoint]
    rw [show jointsReordered md "right" (fun _ => 1) (fun _ => 0) o - 0 =
        jointsReordered md "right" (fun _ => 1) (fun _ => 0) o from sub_zero _]
    show joints21 md "right" (fun _ => 1) (fun _ => 0) (snap_order o) = _
    unfold joints21
    by_cases h : ((snap_order o : Fin 21) : ℕ) < 16
    · rw [dif_pos h, dif_pos h, jointsSkel_one, jointsRegressed_zero]
    · rw [dif_neg h, dif_neg h, vertsPre_tpl md hw]
      rfl
  have htransf : (skinningCore md "right" none (fun _ => 1) (fun _ => 0)).transforms_abs =
      fun k => homog 1 (fun i => ∑ v : Fin 778,
        md.th_J_regressor k v * md.th_v_template v i) := by
    funext k
    simp only [skinningCore]
    unfold homog
    refine congrArg th_with_zeros ?_
    funext i j
    by_cases h : (j : ℕ) < 3
    · rw [dif_pos h, dif_pos h, transfGlobal_one, jointsRegressed_zero]
      exact homog_rr 1 _ i ⟨(j : ℕ), h⟩
    · rw [dif_neg h, dif_neg h, transfGlobal_one, jointsRegressed_zero]
      simp only [centerJoint, Pi.zero_apply, sub_zero]
      exact homog_tc 1 _ i
  constructor
  · unfold manoInit
    rw [if_pos rfl, if_pos rfl]
    rfl
  · simp only [mano_forward]
    rw [show (axisangFlatCfg nc).rot_mode = "axisang" from rfl]
    rw [if_neg (show ¬(("axisang" : String) = "quat") by decide)]
    rw [show (axisangFlatCfg nc).side = "right" from rfl,
      show (axisangFlatCfg nc).center_idx = none from rfl]
    rw [hrots, axisang_flat_zero_full_poses md nc]
    rw [show skinningLayer md "right" none (fun _ => (1 : Mat3)) (fun _ => (0 : ℝ)) =
        Except.ok (skinningCore md "right" none (fun _ => 1) (fun _ => 0)) from rfl]
    simp only [Except.map, Except.ok.injEq, MANOOutput.mk.injEq]
    exact ⟨hverts, hjoints, by trivial, by trivial, by trivial, by trivial, htransf⟩

/-- Witness for C2 at a concrete model-data instance with normalized
weights. -/
theorem zero_pose_zero_shape_scenario_witness :
    (∀ v : Fin 778, ∑ k : Fin 16, mdOne.th_weights v k = 1) ∧
    (manoInit "axisang" "right" none false true 15 mdOne = .ok (axisangFlatCfg 15) ∧
      mano_forward mdOne (axisangFlatCfg 15) (fun _ => 0) (fun _ => 0) =
        .ok { verts := mdOne.th_v_template
              joints := fun o =>
                if h : ((snap_order o : Fin 21) : ℕ) < 16 then
                  (fun i => ∑ v : Fin 778,
                    mdOne.th_J_regressor ⟨((snap_order o : Fin 21) : ℕ), h⟩ v *
                      mdOne.th_v_template v i)
                else
                  mdOne.th_v_template
                    ((![745, 317, 444, 556, 673] : Fin 5 → Fin 778)
                      ⟨((snap_order o : Fin 21) : ℕ) - 16, by omega⟩)
              center_idx := none
              center_joint := 0
              full_poses := fun _ => 0
              betas := fun _ => 0
              transforms_abs := fun k =>
                homog 1 (fun i => ∑ v : Fin 778,
                  mdOne.th_J_regressor k v * mdOne.th_v_template v i) }) := by
  have hw : ∀ v : Fin 778, ∑ k : Fin 16, mdOne.th_weights v k = 1 := by
    intro v
    show ∑ k : Fin 16, (if k = 0 then (1 : ℝ) else 0) = 1
    simp
  exact ⟨hw, zero_pose_zero_shape_scenario 15 mdOne hw⟩

/-- Source `mano_forward` fails with `IndexError` whenever the configured center
index is unusable for PyTorch indexing into the 21 joints. -/
theorem mano_forward_center_error {S : ℕ} (md : ModelData S) (cfg : MANOConfig)
    (c : ℤ) (pose : ℕ → ℝ) (betas : Fin S → ℝ)
    (hc : cfg.center_idx = some c) (hpy : pyIdx21 c = none) :
    mano_forward md cfg pose betas = .error "IndexError" := by
  unfold mano_forward
  rw [hc]
  unfold skinningLayer
  simp only [hpy]
  rfl

/-- C7 counterexample: constructing with quaternion rotation mode while PCA
reduction is requested does not fail — construction succeeds. -/
theorem quat_pca_construction_succeeds :
    exceptOk (manoInit "quat" "right" none true true 15 mdZero) = true := rfl

/-- C7 (amended): constructing with quaternion mode while PCA reduction is
requested succeeds, with a warning recorded, rather than raising a
configuration error. -/
theorem quat_pca_construction_warns {S : ℕ} (side : String) (cIdx : Option ℤ)
    (fhm : Bool) (nc : ℕ) (md : ModelData S) :
    (manoInit "quat" side cIdx true fhm nc md).map MANOConfig.warned = .ok true := by
  unfold manoInit
  rw [if_neg (by decide : ¬(("quat" : String) = "axisang")), if_pos rfl]
  rfl

/-- C8: whenever the batch sizes of the pose and shape inputs differ,
forward fails with the shape-mismatch error and returns no result. -/
theorem batch_size_mismatch_fails {S : ℕ} (md : ModelData S) (cfg : MANOConfig)
    (poses : List (ℕ → ℝ)) (betass : List (Fin S → ℝ))
    (h : poses.length ≠ betass.length) :
    mano_forward_batched md cfg poses betass =
      .error "RuntimeError: Sizes of tensors must match except in dimension 2" := by
  unfold mano_forward_batched
  rw [if_neg h]

/-- Witness for C8 at concrete mismatched batches (1 pose, 0 betas). -/
theorem batch_size_mismatch_fails_witness :
    ([fun _ => (0 : ℝ)] : List (ℕ → ℝ)).length ≠ ([] : List (Fin 1 → ℝ)).length ∧
    mano_forward_batched mdZero (axisangFlatCfg 15) [fun _ => (0 : ℝ)]
        ([] : List (Fin 1 → ℝ)) =
      .error "RuntimeError: Sizes of tensors must match except in dimension 2" :=
  ⟨by decide,
   batch_size_mismatch_fails mdZero (axisangFlatCfg 15) _ _ (by decide)⟩

/-- C9 counterexample: constructing with center index 100 — outside
`[0, 20]` — does not fail at construction; it succeeds. -/
theorem center_idx_oob_construction_succeeds :
    exceptOk (manoInit "axisang" "right" (some 100) false true 15 mdZero) = true := rfl

/-- C9 (amended): construction stores any center-joint index without
validation; a center index outside `[-21, 20]` (in particular any index
greater than 20) raises `IndexError` at the first forward call, not at
construction. -/
theorem center_idx_oob_fails_at_forward {S : ℕ} (side : String) (up fhm : Bool)
    (nc : ℕ) (md : ModelData S) (c : ℤ) (pose : ℕ → ℝ) (betas : Fin S → ℝ)
    (h : c < -21 ∨ 21 ≤ c) :
    exceptOk (manoInit "axisang" side (some c) up fhm nc md) = true ∧
    ∀ cfg, manoInit "axisang" side (some c) up fhm nc md = .ok cfg →
      mano_forward md cfg pose betas = .error "IndexError" := by
  have hpy : pyIdx21 c = none := by
    unfold pyIdx21
    rw [dif_neg (by omega), dif_neg (by omega)]
  constructor
  · rfl
  · intro cfg hcfg
    unfold manoInit at hcfg
    rw [if_pos rfl] at hcfg
    injection hcfg with h2
    subst h2
    exact mano_forward_center_error md _ c pose betas rfl hpy

/-- Witness for C9 (amended) at concrete center index 100. -/
theorem center_idx_oob_fails_at_forward_witness :
    ((100 : ℤ) < -21 ∨ 21 ≤ (100 : ℤ)) ∧
    (exceptOk (manoInit "axisang" "right" (some 100) false true 15 mdZero) = true ∧
      ∀ cfg, manoInit "axisang" "right" (some 100) false true 15 mdZero = .ok cfg →
        mano_forward mdZero cfg (fun _ => 0) (fun _ => 0) = .error "IndexError") :=
  ⟨by decide,
   center_idx_oob_fails_at_forward "right" false true 15 mdZero 100
     (fun _ => 0) (fun _ => 0) (by decide)⟩

/-- C10: a quaternion-mode model constructed with `use_pca = true` (or
`flat_hand_mean = false`) is constructed successfully — only a warning flag
is recorded — and its forward output is identical, for every input, to that
of a quaternion-mode model with `use_pca = false` and
`flat_hand_mean = true`: the quaternion resolver never reads the PCA or
mean-pose configuration. -/
theorem quat_mode_ignores_pca_flags {S : ℕ} (md : ModelData S) (side : String)
    (cIdx : Option ℤ) (up fhm : Bool) (nc nc2 : ℕ) (pose : ℕ → ℝ)
    (betas : Fin S → ℝ) :
    (manoInit "quat" side cIdx up fhm nc md).map MANOConfig.warned =
      .ok (up || !fhm) ∧
    (manoInit "quat" side cIdx up fhm nc md).map
        (fun cfg => mano_forward md cfg pose betas) =
      (manoInit "quat" side cIdx false true nc2 md).map
        (fun cfg => mano_forward md cfg pose betas) := by
  constructor
  · unfold manoInit
    rw [if_neg (by decide : ¬(("quat" : String) = "axisang")), if_pos rfl]
    rfl
  · unfold manoInit
    rw [if_neg (by decide : ¬(("quat" : String) = "axisang")), if_pos rfl]
    simp only [Except.map]
    refine congrArg Except.ok ?_
    rfl
